import Mathlib

/-!
Shallow embedding of the shape-calculator program in `src/file.cpp`.

The C++ program models geometric shapes (Rectangle, Circle, Triangle) behind
an abstract `Shape` base class with two mutable memoization fields
(`cached_area`, `cached_perimeter`, both initialized to `-1.0`), accessors
`getArea`/`getPerimeter` that recompute a metric whenever the corresponding
cache field is `< 0`, pure virtual formulas `calculateArea`/`calculatePerimeter`
implemented by each derived class, and a fold `calculateShapeStats` that sums
the memoized area and perimeter over a vector of shapes.

Number model: C++ `double` values are idealized as exact rationals extended
with a NaN marker (inductive `D` below).  This keeps every arithmetic step of
the program exact (no rounding, no infinities), while preserving the two
floating-point behaviours the program's control flow depends on:
`sqrt` of a negative operand yields NaN, and every ordered comparison
involving NaN is false.  `Real.sqrt` is noncomputable, so `csqrt` uses a
computable rational square root that is exact on perfect squares (the only
radicands the program's concrete data exercises) and yields an arbitrary
nonnegative rational on non-square radicands.
-/

namespace ShapeCalc

/-- Idealized `double`: an exact rational or NaN. -/
inductive D where
  | num (q : ℚ)
  | nan
deriving DecidableEq

namespace D

/-- Addition on idealized doubles; NaN absorbs, mirroring IEEE propagation. -/
def add : D → D → D
  | num a, num b => num (a + b)
  | _, _ => nan

/-- Subtraction on idealized doubles; NaN absorbs. -/
def sub : D → D → D
  | num a, num b => num (a - b)
  | _, _ => nan

/-- Multiplication on idealized doubles; NaN absorbs.  (The idealization has
no signed zero and no infinities, so `0 * x` is `0` for numeric `x`.) -/
def mul : D → D → D
  | num a, num b => num (a * b)
  | _, _ => nan

instance : Add D := ⟨D.add⟩
instance : Sub D := ⟨D.sub⟩
instance : Mul D := ⟨D.mul⟩

/-- Strict less-than test on idealized doubles, as a Bool like C++ `<`:
any comparison involving NaN is false (IEEE unordered comparison). -/
def blt : D → D → Bool
  | num a, num b => decide (a < b)
  | _, _ => false

end D

/-- Model of C `sqrt` on idealized doubles: NaN on NaN, NaN on a negative
operand (the behaviour `Triangle::calculateArea` relies on for degenerate
triangles), `Rat.sqrt` otherwise.  `Rat.sqrt` is computable, nonnegative,
and exact on rationals that are squares of rationals — the only radicands
whose exact value the program's concrete data exercises. -/
def csqrt : D → D
  | D.num q => if q < 0 then D.nan else D.num (Rat.sqrt q)
  | D.nan => D.nan

namespace Constants

/-- `Constants::PI` from src/file.cpp line 12, the literal
`3.14159265358979323846` read exactly as a rational. -/
def PI : ℚ := 3.14159265358979323846

/-- `Constants::PRECISION` from src/file.cpp line 13. -/
def PRECISION : Nat := 2

end Constants

/-- The per-variant data of a concrete shape: the defining measurements plus
the derived attributes the C++ derived classes precompute in their
constructors (`radius_squared`, `semi_perimeter`).  Immutable after
construction, exactly like the C++ fields (none of the member functions
assigns to them). -/
inductive ShapeKind where
  | rect (width height : D)
  | circ (radius radius_squared : D)
  | tri (side1 side2 side3 semi_perimeter : D)
deriving DecidableEq

/-- The mutable state of one `Shape` object: the immutable name and variant
data, plus the two `mutable` cache fields. -/
structure ShapeState where
  name : String
  kind : ShapeKind
  cached_area : D
  cached_perimeter : D
deriving DecidableEq

/-- The `Shape(string_view)` base constructor (src/file.cpp line 24) together
with the in-class initializers `cached_area = -1.0`,
`cached_perimeter = -1.0` (lines 20-21). -/
def Shape (nm : String) (k : ShapeKind) : ShapeState :=
  { name := nm, kind := k, cached_area := D.num (-1), cached_perimeter := D.num (-1) }

/-- The `Rectangle(double w, double h)` constructor (line 60). -/
def Rectangle (w h : D) : ShapeState :=
  Shape "Rectangle" (ShapeKind.rect w h)

/-- The `Circle(double r)` constructor (line 88): stores `r` and the
precomputed `radius_squared = r * r`. -/
def Circle (r : D) : ShapeState :=
  Shape "Circle" (ShapeKind.circ r (r * r))

/-- The `Triangle(double s1, double s2, double s3)` constructor
(lines 115-117): stores the three sides and the precomputed
`semi_perimeter = (s1 + s2 + s3) * 0.5`. -/
def Triangle (s1 s2 s3 : D) : ShapeState :=
  Shape "Triangle" (ShapeKind.tri s1 s2 s3 ((s1 + s2 + s3) * D.num (1/2)))

/-- The local `term` of `Triangle::calculateArea` (lines 121-122):
`semi_perimeter * (semi_perimeter - side1) * (semi_perimeter - side2) *
(semi_perimeter - side3)`, the radicand of Heron's formula. -/
def heronTerm (s1 s2 s3 sp : D) : D :=
  sp * (sp - s1) * (sp - s2) * (sp - s3)

/-- Virtual `calculateArea` dispatched over the three derived classes
(lines 62-64, 90-92, 119-124). -/
def calculateArea : ShapeKind → D
  | ShapeKind.rect w h => w * h
  | ShapeKind.circ _ r2 => D.num Constants.PI * r2
  | ShapeKind.tri s1 s2 s3 sp => csqrt (heronTerm s1 s2 s3 sp)

/-- Virtual `calculatePerimeter` dispatched over the three derived classes
(lines 66-68, 94-96, 126-128). -/
def calculatePerimeter : ShapeKind → D
  | ShapeKind.rect w h => D.num 2 * (w + h)
  | ShapeKind.circ r _ => D.num 2 * D.num Constants.PI * r
  | ShapeKind.tri _ _ _ sp => D.num 2 * sp

/-- `Shape::getArea` (lines 38-43): if `cached_area < 0`, recompute and store
`calculateArea()`; return the cache.  Returns the value, the updated object
state, and an instrumentation Bool recording whether the `cached_area < 0`
branch ran, i.e. whether the virtual formula was invoked and its result
stored (the spec's "observable via a call counter"). -/
def getArea (s : ShapeState) : D × ShapeState × Bool :=
  if (s.cached_area).blt (D.num 0) then
    let a := calculateArea s.kind
    (a, { s with cached_area := a }, true)
  else
    (s.cached_area, s, false)

/-- `Shape::getPerimeter` (lines 46-51), instrumented like `getArea`. -/
def getPerimeter (s : ShapeState) : D × ShapeState × Bool :=
  if (s.cached_perimeter).blt (D.num 0) then
    let p := calculatePerimeter s.kind
    (p, { s with cached_perimeter := p }, true)
  else
    (s.cached_perimeter, s, false)

/-- State effect of the virtual `displayInfo` of each derived class
(lines 70-78, 98-105, 130-137): each one formats text to stdout and calls
`getArea()` then `getPerimeter()`; only the cache population is observable
program state, the text stream is outside the model. -/
def displayInfo (s : ShapeState) : ShapeState :=
  (getPerimeter (getArea s).2.1).2.1

/-- One public operation on a shape object, for quantifying over call
sequences: `getArea`, `getPerimeter`, or `displayInfo`. -/
inductive Op where
  | area
  | perimeter
  | describe
deriving DecidableEq

/-- State effect of one operation. -/
def applyOp : Op → ShapeState → ShapeState
  | Op.area, s => (getArea s).2.1
  | Op.perimeter, s => (getPerimeter s).2.1
  | Op.describe, s => displayInfo s

/-- State effect of a sequence of operations, applied left to right. -/
def runOps (ops : List Op) (s : ShapeState) : ShapeState :=
  ops.foldl (fun s op => applyOp op s) s

/-- `ShapeStats` (lines 147-151). -/
structure ShapeStats where
  total_area : D
  total_perimeter : D
  count : Nat
deriving DecidableEq

/-- `calculateShapeStats` (lines 153-164): `count` is the vector size; the
loop adds each shape's `getArea()` and then its `getPerimeter()` (on the
state the `getArea` call produced) into the running totals. -/
def calculateShapeStats (shapes : List ShapeState) : ShapeStats :=
  shapes.foldl
    (fun stats sh =>
      let a := (getArea sh).1
      let p := (getPerimeter (getArea sh).2.1).1
      { stats with
          total_area := stats.total_area + a
          total_perimeter := stats.total_perimeter + p })
    { total_area := D.num 0, total_perimeter := D.num 0, count := shapes.length }

/-- The five shapes `main` puts in the vector (lines 176-180). -/
def demoShapes : List ShapeState :=
  [ Rectangle (D.num 5) (D.num 3)
  , Circle (D.num 4)
  , Triangle (D.num 3) (D.num 4) (D.num 5)
  , Rectangle (D.num (5/2)) (D.num 6)
  , Circle (D.num (5/2)) ]

/-- Left-to-right sum of a list of idealized doubles, starting from `0.0` —
the accumulation order of the `+=` loop in `calculateShapeStats`. -/
def sumD (l : List D) : D :=
  l.foldl (· + ·) (D.num 0)

/-! ### Evaluation lemmas for the idealized-double arithmetic -/

@[simp]
theorem num_add_num (a b : ℚ) : D.num a + D.num b = D.num (a + b) := rfl

@[simp]
theorem num_sub_num (a b : ℚ) : D.num a - D.num b = D.num (a - b) := rfl

@[simp]
theorem num_mul_num (a b : ℚ) : D.num a * D.num b = D.num (a * b) := rfl

@[simp]
theorem num_blt_num (a b : ℚ) : (D.num a).blt (D.num b) = decide (a < b) := rfl

@[simp]
theorem nan_blt (x : D) : D.nan.blt x = false := by cases x <;> rfl

@[simp]
theorem blt_nan (x : D) : x.blt D.nan = false := by cases x <;> rfl

@[simp]
theorem nan_add (x : D) : D.nan + x = D.nan := by cases x <;> rfl

@[simp]
theorem add_nan (x : D) : x + D.nan = D.nan := by cases x <;> rfl

@[simp]
theorem csqrt_num (q : ℚ) : csqrt (D.num q) = if q < 0 then D.nan else D.num (Rat.sqrt q) := rfl

@[simp]
theorem csqrt_nan : csqrt D.nan = D.nan := rfl

/-! ### Small facts about the embedded operations -/

theorem Shape_kind (nm : String) (k : ShapeKind) : (Shape nm k).kind = k := rfl

theorem Shape_cached_area (nm : String) (k : ShapeKind) :
    (Shape nm k).cached_area = D.num (-1) := rfl

theorem Shape_cached_perimeter (nm : String) (k : ShapeKind) :
    (Shape nm k).cached_perimeter = D.num (-1) := rfl

theorem neg_one_blt_zero : (D.num (-1)).blt (D.num 0) = true := by
  simp

/-- A `getArea` call on a state whose cache tests below zero: the virtual
formula runs, its value is returned and stored, and the instrumentation flag
is `true`. -/
theorem getArea_of_blt (s : ShapeState) (h : (s.cached_area).blt (D.num 0) = true) :
    getArea s = (calculateArea s.kind, { s with cached_area := calculateArea s.kind }, true) := by
  simp [getArea, h]

/-- A `getArea` call on a state whose cache does not test below zero: the
cached value is returned, the state is unchanged, and the flag is `false`. -/
theorem getArea_of_not_blt (s : ShapeState) (h : (s.cached_area).blt (D.num 0) = false) :
    getArea s = (s.cached_area, s, false) := by
  simp [getArea, h]

theorem getPerimeter_of_blt (s : ShapeState)
    (h : (s.cached_perimeter).blt (D.num 0) = true) :
    getPerimeter s
      = (calculatePerimeter s.kind, { s with cached_perimeter := calculatePerimeter s.kind },
         true) := by
  simp [getPerimeter, h]

theorem getPerimeter_of_not_blt (s : ShapeState)
    (h : (s.cached_perimeter).blt (D.num 0) = false) :
    getPerimeter s = (s.cached_perimeter, s, false) := by
  simp [getPerimeter, h]

/-- On a freshly constructed shape the area cache is `-1`, so the first
`getArea` call always runs the formula. -/
theorem getArea_fresh (nm : String) (k : ShapeKind) :
    getArea (Shape nm k)
      = (calculateArea k, { Shape nm k with cached_area := calculateArea k }, true) :=
  getArea_of_blt (Shape nm k) neg_one_blt_zero

theorem getPerimeter_fresh (nm : String) (k : ShapeKind) :
    getPerimeter (Shape nm k)
      = (calculatePerimeter k,
         { Shape nm k with cached_perimeter := calculatePerimeter k }, true) :=
  getPerimeter_of_blt (Shape nm k) neg_one_blt_zero

/-! ### Frame lemmas: what each accessor leaves untouched -/

theorem getArea_state_kind (s : ShapeState) : (getArea s).2.1.kind = s.kind := by
  unfold getArea; split <;> rfl

theorem getArea_state_name (s : ShapeState) : (getArea s).2.1.name = s.name := by
  unfold getArea; split <;> rfl

theorem getArea_state_perimeter (s : ShapeState) :
    (getArea s).2.1.cached_perimeter = s.cached_perimeter := by
  unfold getArea; split <;> rfl

theorem getPerimeter_state_kind (s : ShapeState) : (getPerimeter s).2.1.kind = s.kind := by
  unfold getPerimeter; split <;> rfl

theorem getPerimeter_state_name (s : ShapeState) : (getPerimeter s).2.1.name = s.name := by
  unfold getPerimeter; split <;> rfl

theorem getPerimeter_state_area (s : ShapeState) :
    (getPerimeter s).2.1.cached_area = s.cached_area := by
  unfold getPerimeter; split <;> rfl

/-- The value of a `getPerimeter` call depends only on the perimeter cache and
the variant data, both of which `getArea` leaves untouched. -/
theorem getPerimeter_value_after_getArea (s : ShapeState) :
    (getPerimeter (getArea s).2.1).1 = (getPerimeter s).1 := by
  unfold getPerimeter
  rw [getArea_state_perimeter, getArea_state_kind]
  split <;> rfl

/-! ### Cache evolution along arbitrary call sequences -/

theorem getArea_state_area_cases (s : ShapeState) :
    (getArea s).2.1.cached_area = s.cached_area
      ∨ (getArea s).2.1.cached_area = calculateArea s.kind := by
  unfold getArea; split
  · exact Or.inr rfl
  · exact Or.inl rfl

theorem getPerimeter_state_perimeter_cases (s : ShapeState) :
    (getPerimeter s).2.1.cached_perimeter = s.cached_perimeter
      ∨ (getPerimeter s).2.1.cached_perimeter = calculatePerimeter s.kind := by
  unfold getPerimeter; split
  · exact Or.inr rfl
  · exact Or.inl rfl

theorem applyOp_kind (op : Op) (s : ShapeState) : (applyOp op s).kind = s.kind := by
  cases op with
  | area => exact getArea_state_kind s
  | perimeter => exact getPerimeter_state_kind s
  | describe =>
      show (getPerimeter (getArea s).2.1).2.1.kind = s.kind
      rw [getPerimeter_state_kind, getArea_state_kind]

theorem applyOp_name (op : Op) (s : ShapeState) : (applyOp op s).name = s.name := by
  cases op with
  | area => exact getArea_state_name s
  | perimeter => exact getPerimeter_state_name s
  | describe =>
      show (getPerimeter (getArea s).2.1).2.1.name = s.name
      rw [getPerimeter_state_name, getArea_state_name]

theorem applyOp_area_cases (op : Op) (s : ShapeState) :
    (applyOp op s).cached_area = s.cached_area
      ∨ (applyOp op s).cached_area = calculateArea s.kind := by
  cases op with
  | area => exact getArea_state_area_cases s
  | perimeter => exact Or.inl (getPerimeter_state_area s)
  | describe =>
      have h1 : (applyOp Op.describe s).cached_area = (getArea s).2.1.cached_area :=
        getPerimeter_state_area (getArea s).2.1
      rw [h1]
      exact getArea_state_area_cases s

theorem applyOp_perimeter_cases (op : Op) (s : ShapeState) :
    (applyOp op s).cached_perimeter = s.cached_perimeter
      ∨ (applyOp op s).cached_perimeter = calculatePerimeter s.kind := by
  cases op with
  | area => exact Or.inl (getArea_state_perimeter s)
  | perimeter => exact getPerimeter_state_perimeter_cases s
  | describe =>
      rcases getPerimeter_state_perimeter_cases (getArea s).2.1 with h | h
      · exact Or.inl (h.trans (getArea_state_perimeter s))
      · exact Or.inr (h.trans (congrArg calculatePerimeter (getArea_state_kind s)))

theorem runOps_nil (s : ShapeState) : runOps [] s = s := rfl

theorem runOps_cons (op : Op) (ops : List Op) (s : ShapeState) :
    runOps (op :: ops) s = runOps ops (applyOp op s) := rfl

theorem runOps_kind (ops : List Op) (s : ShapeState) : (runOps ops s).kind = s.kind := by
  induction ops generalizing s with
  | nil => rfl
  | cons op ops ih => rw [runOps_cons, ih, applyOp_kind]

theorem runOps_name (ops : List Op) (s : ShapeState) : (runOps ops s).name = s.name := by
  induction ops generalizing s with
  | nil => rfl
  | cons op ops ih => rw [runOps_cons, ih, applyOp_name]

/-- The area cache of any state reached from `s` holds either the value it
held in `s` (in particular the `-1` sentinel of a fresh shape) or the value of
the area formula on the shape's immutable variant data. -/
theorem runOps_area_cases (ops : List Op) (s : ShapeState) :
    (runOps ops s).cached_area = s.cached_area
      ∨ (runOps ops s).cached_area = calculateArea s.kind := by
  induction ops generalizing s with
  | nil => exact Or.inl rfl
  | cons op ops ih =>
      rw [runOps_cons]
      rcases ih (applyOp op s) with h | h
      · rw [h]
        exact applyOp_area_cases op s
      · rw [h, applyOp_kind]
        exact Or.inr rfl

theorem runOps_perimeter_cases (ops : List Op) (s : ShapeState) :
    (runOps ops s).cached_perimeter = s.cached_perimeter
      ∨ (runOps ops s).cached_perimeter = calculatePerimeter s.kind := by
  induction ops generalizing s with
  | nil => exact Or.inl rfl
  | cons op ops ih =>
      rw [runOps_cons]
      rcases ih (applyOp op s) with h | h
      · rw [h]
        exact applyOp_perimeter_cases op s
      · rw [h, applyOp_kind]
        exact Or.inr rfl

/-- Once the area cache holds exactly the formula's value, every further
operation keeps it at that value. -/
theorem runOps_area_stable (ops : List Op) (s : ShapeState)
    (h : s.cached_area = calculateArea s.kind) :
    (runOps ops s).cached_area = calculateArea s.kind := by
  rcases runOps_area_cases ops s with h' | h'
  · rw [h']
    exact h
  · exact h'

theorem runOps_perimeter_stable (ops : List Op) (s : ShapeState)
    (h : s.cached_perimeter = calculatePerimeter s.kind) :
    (runOps ops s).cached_perimeter = calculatePerimeter s.kind := by
  rcases runOps_perimeter_cases ops s with h' | h'
  · rw [h']
    exact h
  · exact h'

/-- Value refinement for the area accessor: on any state whose cache is
either the fresh sentinel or the formula's value, `getArea` returns exactly
the formula's value — whether it serves the cache or recomputes. -/
theorem getArea_value_of_cases (s : ShapeState)
    (h : s.cached_area = D.num (-1) ∨ s.cached_area = calculateArea s.kind) :
    (getArea s).1 = calculateArea s.kind := by
  unfold getArea
  split
  · rfl
  · rcases h with h | h
    · rename_i hb
      rw [h] at hb
      simp [neg_one_blt_zero] at hb
    · exact h

theorem getPerimeter_value_of_cases (s : ShapeState)
    (h : s.cached_perimeter = D.num (-1) ∨ s.cached_perimeter = calculatePerimeter s.kind) :
    (getPerimeter s).1 = calculatePerimeter s.kind := by
  unfold getPerimeter
  split
  · rfl
  · rcases h with h | h
    · rename_i hb
      rw [h] at hb
      simp [neg_one_blt_zero] at hb
    · exact h

/-! ### Comparison helpers -/

theorem num_blt_true (a b : ℚ) (h : a < b) : (D.num a).blt (D.num b) = true := by
  simp [h]

theorem num_blt_false (a b : ℚ) (h : b ≤ a) : (D.num a).blt (D.num b) = false := by
  simp [not_lt.mpr h]

/-! ### Concrete formula values -/

theorem Rectangle_kind (w h : D) : (Rectangle w h).kind = ShapeKind.rect w h := rfl

theorem Circle_kind (r : D) : (Circle r).kind = ShapeKind.circ r (r * r) := rfl

theorem Triangle_kind (a b c : D) :
    (Triangle a b c).kind = ShapeKind.tri a b c ((a + b + c) * D.num (1/2)) := rfl

theorem calculateArea_rect_q (w h : ℚ) :
    calculateArea (Rectangle (D.num w) (D.num h)).kind = D.num (w * h) := rfl

theorem calculatePerimeter_rect_q (w h : ℚ) :
    calculatePerimeter (Rectangle (D.num w) (D.num h)).kind = D.num (2 * (w + h)) := rfl

theorem calculateArea_circ_q (r : ℚ) :
    calculateArea (Circle (D.num r)).kind = D.num (Constants.PI * (r * r)) := rfl

theorem calculatePerimeter_circ_q (r : ℚ) :
    calculatePerimeter (Circle (D.num r)).kind = D.num (2 * Constants.PI * r) := rfl

theorem calculateArea_tri_q (a b c : ℚ) :
    calculateArea (Triangle (D.num a) (D.num b) (D.num c)).kind
      = csqrt (D.num ((a + b + c) * (1/2) * ((a + b + c) * (1/2) - a)
          * ((a + b + c) * (1/2) - b) * ((a + b + c) * (1/2) - c))) := rfl

theorem calculatePerimeter_tri_q (a b c : ℚ) :
    calculatePerimeter (Triangle (D.num a) (D.num b) (D.num c)).kind
      = D.num (2 * ((a + b + c) * (1/2))) := rfl

theorem Rat_sqrt_36 : Rat.sqrt 36 = 6 := by
  have h : (36 : ℚ) = 6 * 6 := by norm_num
  rw [h, Rat.sqrt_eq]
  norm_num

theorem triangle_3_4_5_area : calculateArea (Triangle (D.num 3) (D.num 4) (D.num 5)).kind = D.num 6 := by
  rw [calculateArea_tri_q]
  have h : ((3 : ℚ) + 4 + 5) * (1/2) * ((3 + 4 + 5) * (1/2) - 3)
      * ((3 + 4 + 5) * (1/2) - 4) * ((3 + 4 + 5) * (1/2) - 5) = 36 := by norm_num
  rw [h, csqrt_num, if_neg (by norm_num), Rat_sqrt_36]

theorem triangle_3_4_5_perimeter :
    calculatePerimeter (Triangle (D.num 3) (D.num 4) (D.num 5)).kind = D.num 12 := by
  rw [calculatePerimeter_tri_q]
  norm_num

/-! ### Decomposition of the statistics fold -/

theorem calculateShapeStats_eq (ss : List ShapeState) :
    calculateShapeStats ss
      = { total_area := sumD (ss.map (fun sh => (getArea sh).1)),
          total_perimeter := sumD (ss.map (fun sh => (getPerimeter sh).1)),
          count := ss.length } := by
  have aux : ∀ (l : List ShapeState) (st : ShapeStats),
      List.foldl (fun stats sh =>
        let a := (getArea sh).1
        let p := (getPerimeter (getArea sh).2.1).1
        { stats with
            total_area := stats.total_area + a
            total_perimeter := stats.total_perimeter + p }) st l
        = { total_area := List.foldl (fun t sh => t + (getArea sh).1) st.total_area l,
            total_perimeter :=
              List.foldl (fun t sh => t + (getPerimeter (getArea sh).2.1).1)
                st.total_perimeter l,
            count := st.count } := by
    intro l
    induction l with
    | nil => intro st; rfl
    | cons sh l ih =>
        intro st
        rw [List.foldl_cons, List.foldl_cons, List.foldl_cons, ih]
  have h0 : calculateShapeStats ss
      = List.foldl (fun stats sh =>
          let a := (getArea sh).1
          let p := (getPerimeter (getArea sh).2.1).1
          { stats with
              total_area := stats.total_area + a
              total_perimeter := stats.total_perimeter + p })
          { total_area := D.num 0, total_perimeter := D.num 0, count := ss.length } ss := rfl
  rw [h0, aux]
  simp only [sumD, List.foldl_map, getPerimeter_value_after_getArea]

theorem getArea_fresh_value (nm : String) (k : ShapeKind) :
    (getArea (Shape nm k)).1 = calculateArea k := by
  rw [getArea_fresh]

theorem getPerimeter_fresh_value (nm : String) (k : ShapeKind) :
    (getPerimeter (Shape nm k)).1 = calculatePerimeter k := by
  rw [getPerimeter_fresh]

/-! ## The claims -/

/-- Claim C2: for a Triangle whose sides (1, 1, 10) violate the triangle
inequality, the semi-perimeter is 6, the radicand of Heron's formula is the
negative value -600, and `calculateArea` yields NaN.  `calculateArea` is a
total function into `D` — there is no exception or `InvalidGeometry` result
channel at all, so no error signal accompanies the NaN. -/
theorem C2_degenerate_triangle_nan :
    (Triangle (D.num 1) (D.num 1) (D.num 10)).kind
        = ShapeKind.tri (D.num 1) (D.num 1) (D.num 10) (D.num 6)
    ∧ heronTerm (D.num 1) (D.num 1) (D.num 10) (D.num 6) = D.num (-600)
    ∧ (D.num (-600)).blt (D.num 0) = true
    ∧ calculateArea (Triangle (D.num 1) (D.num 1) (D.num 10)).kind = D.nan := by
  have hs : ((1 : ℚ) + 1 + 10) * (1/2) = 6 := by norm_num
  refine ⟨?_, ?_, ?_, ?_⟩
  · rw [Triangle_kind, num_add_num, num_add_num, num_mul_num, hs]
  · show D.num ((6 : ℚ) * (6 - 1) * (6 - 1) * (6 - 10)) = D.num (-600)
    norm_num
  · exact num_blt_true _ _ (by norm_num)
  · rw [calculateArea_tri_q]
    have h : ((1 : ℚ) + 1 + 10) * (1/2) * (((1 : ℚ) + 1 + 10) * (1/2) - 1)
        * (((1 : ℚ) + 1 + 10) * (1/2) - 1) * (((1 : ℚ) + 1 + 10) * (1/2) - 10) = -600 := by
      norm_num
    rw [h, csqrt_num, if_pos (by norm_num)]

/-- Claim C5: for every Rectangle with width `w` and height `h`,
`calculateArea` returns `w * h` and `calculatePerimeter` returns
`2 * (w + h)`.  The quantification is over all rationals — zero and negative
dimensions included: the constructor performs no validation and the values
propagate arithmetically, as the concrete `Rectangle (-3) 4` conjunct
shows. -/
theorem C5_rectangle_formulas :
    (∀ w h : ℚ,
        calculateArea (Rectangle (D.num w) (D.num h)).kind = D.num (w * h)
        ∧ calculatePerimeter (Rectangle (D.num w) (D.num h)).kind = D.num (2 * (w + h)))
    ∧ calculateArea (Rectangle (D.num (-3)) (D.num 4)).kind = D.num (-12) := by
  refine ⟨fun w h => ⟨rfl, rfl⟩, ?_⟩
  rw [calculateArea_rect_q]
  norm_num

/-- Claim C6: for every Circle with radius `r`, `calculateArea` returns
`PI * r ^ 2` (computed as `PI * radius_squared` with the precomputed
`radius_squared = r * r`) and `calculatePerimeter` returns `2 * PI * r`,
where `PI` is the fixed constant `3.14159265358979323846`; in the idealized
rational model the formulas hold exactly. -/
theorem C6_circle_formulas :
    (∀ r : ℚ,
        calculateArea (Circle (D.num r)).kind = D.num (Constants.PI * r ^ 2)
        ∧ calculatePerimeter (Circle (D.num r)).kind = D.num (2 * Constants.PI * r))
    ∧ Constants.PI = 314159265358979323846 / 100000000000000000000 := by
  constructor
  · intro r
    constructor
    · rw [calculateArea_circ_q, pow_two]
    · exact calculatePerimeter_circ_q r
  · norm_num [Constants.PI]

/-- Claim C7: for every Triangle with sides `a`, `b`, `c` and semi-perimeter
`s = (a + b + c) / 2` (stored at construction as `(a + b + c) * 0.5`),
`calculateArea` is the square root of `s * (s - a) * (s - b) * (s - c)`
(Heron's formula) and `calculatePerimeter` returns `2 * s`. -/
theorem C7_triangle_formulas (a b c s : ℚ) (hs : s = (a + b + c) / 2) :
    calculateArea (Triangle (D.num a) (D.num b) (D.num c)).kind
        = csqrt (D.num (s * (s - a) * (s - b) * (s - c)))
    ∧ calculatePerimeter (Triangle (D.num a) (D.num b) (D.num c)).kind = D.num (2 * s) := by
  have h2 : (a + b + c) * (1/2) = s := by rw [hs]; ring
  constructor
  · rw [calculateArea_tri_q, h2]
  · rw [calculatePerimeter_tri_q, h2]

/-- Witness for C7 at the 3-4-5 triangle, whose semi-perimeter is 6. -/
theorem C7_triangle_formulas_witness :
    (6 : ℚ) = (3 + 4 + 5) / 2
    ∧ (calculateArea (Triangle (D.num 3) (D.num 4) (D.num 5)).kind
          = csqrt (D.num (6 * (6 - 3) * (6 - 4) * (6 - 5)))
        ∧ calculatePerimeter (Triangle (D.num 3) (D.num 4) (D.num 5)).kind
          = D.num (2 * 6)) :=
  ⟨by norm_num, C7_triangle_formulas 3 4 5 6 (by norm_num)⟩

/-- Claim C8: the 3-4-5 triangle has area exactly 6 and perimeter exactly 12;
in the idealized model the radicand is the perfect square 36, so the value is
exact with no floating-point tolerance needed. -/
theorem C8_triangle_3_4_5 :
    calculateArea (Triangle (D.num 3) (D.num 4) (D.num 5)).kind = D.num 6
    ∧ calculatePerimeter (Triangle (D.num 3) (D.num 4) (D.num 5)).kind = D.num 12 :=
  ⟨triangle_3_4_5_area, triangle_3_4_5_perimeter⟩

/-- Claim C9: `getArea` changes nothing but the `cached_area` field — the
name, the variant data (measurements and the derived `radius_squared` /
`semi_perimeter` attributes), and the perimeter cache are untouched — and
symmetrically for `getPerimeter`.  The model state consists of exactly these
fields, and both accessors are pure functions of the single shape they
receive, so no other program state exists for them to affect. -/
theorem C9_frame_effect (s : ShapeState) :
    (getArea s).2.1.name = s.name
    ∧ (getArea s).2.1.kind = s.kind
    ∧ (getArea s).2.1.cached_perimeter = s.cached_perimeter
    ∧ (getPerimeter s).2.1.name = s.name
    ∧ (getPerimeter s).2.1.kind = s.kind
    ∧ (getPerimeter s).2.1.cached_area = s.cached_area :=
  ⟨getArea_state_name s, getArea_state_kind s, getArea_state_perimeter s,
   getPerimeter_state_name s, getPerimeter_state_kind s, getPerimeter_state_area s⟩

/-- Claim C1 counterexample: the cache sentinel is `-1.0` and the cache test
is `cached_area < 0`, so a shape whose area formula yields a negative value
is never effectively memoized.  For `Rectangle(1, -3)` (constructed without
validation; area `-3`), the first `getArea` call runs the formula
(instrumentation flag `true`) — and so does the second call, refuting "the
formula executes only once per shape instance".  Both calls do return the
identical value `-3`. -/
theorem C1_counterexample :
    (getArea (Rectangle (D.num 1) (D.num (-3)))).2.2 = true
    ∧ (getArea ((getArea (Rectangle (D.num 1) (D.num (-3)))).2.1)).2.2 = true
    ∧ (getArea ((getArea (Rectangle (D.num 1) (D.num (-3)))).2.1)).1
        = (getArea (Rectangle (D.num 1) (D.num (-3)))).1 := by
  refine ⟨?_, ?_, ?_⟩ <;>
    norm_num [Rectangle, Shape, getArea, calculateArea, decide_eq_true_eq]

/-- Claim C1, amended: for every shape whose formula value is not negative
(which includes a NaN value, since `NaN < 0` is false), `getArea` memoizes as
claimed — the first call invokes the formula (flag `true`) and returns and
stores its value, and the second call returns the stored value without
recomputing (flag `false`), leaving the state unchanged; likewise
`getPerimeter`.  When the formula value is negative the accessor recomputes
on every call (see the counterexample), though each call still returns the
identical value. -/
theorem C1_amended_memoization (nm : String) (k : ShapeKind)
    (ha : (calculateArea k).blt (D.num 0) = false)
    (hp : (calculatePerimeter k).blt (D.num 0) = false) :
    (getArea (Shape nm k)).2.2 = true
    ∧ (getArea (Shape nm k)).1 = calculateArea k
    ∧ (getArea ((getArea (Shape nm k)).2.1)).2.2 = false
    ∧ (getArea ((getArea (Shape nm k)).2.1)).1 = calculateArea k
    ∧ (getArea ((getArea (Shape nm k)).2.1)).2.1 = (getArea (Shape nm k)).2.1
    ∧ (getPerimeter (Shape nm k)).2.2 = true
    ∧ (getPerimeter (Shape nm k)).1 = calculatePerimeter k
    ∧ (getPerimeter ((getPerimeter (Shape nm k)).2.1)).2.2 = false
    ∧ (getPerimeter ((getPerimeter (Shape nm k)).2.1)).1 = calculatePerimeter k
    ∧ (getPerimeter ((getPerimeter (Shape nm k)).2.1)).2.1
        = (getPerimeter (Shape nm k)).2.1 := by
  have h1 := getArea_fresh nm k
  have g1 := getPerimeter_fresh nm k
  have hb2 : ((getArea (Shape nm k)).2.1.cached_area).blt (D.num 0) = false := by
    rw [h1]; exact ha
  have h2 := getArea_of_not_blt _ hb2
  have gb2 : ((getPerimeter (Shape nm k)).2.1.cached_perimeter).blt (D.num 0) = false := by
    rw [g1]; exact hp
  have g2 := getPerimeter_of_not_blt _ gb2
  refine ⟨?_, ?_, ?_, ?_, ?_, ?_, ?_, ?_, ?_, ?_⟩
  · rw [h1]
  · rw [h1]
  · rw [h2]
  · rw [h2, h1]
  · rw [h2]
  · rw [g1]
  · rw [g1]
  · rw [g2]
  · rw [g2, g1]
  · rw [g2]

/-- Witness for the amended C1 at `Rectangle(5, 3)`: area 15 and perimeter 16
are nonnegative, and the memoization behaviour follows. -/
theorem C1_amended_memoization_witness :
    (calculateArea (ShapeKind.rect (D.num 5) (D.num 3))).blt (D.num 0) = false
    ∧ (calculatePerimeter (ShapeKind.rect (D.num 5) (D.num 3))).blt (D.num 0) = false
    ∧ ((getArea (Shape "Rectangle" (ShapeKind.rect (D.num 5) (D.num 3)))).2.2 = true
      ∧ (getArea (Shape "Rectangle" (ShapeKind.rect (D.num 5) (D.num 3)))).1
          = calculateArea (ShapeKind.rect (D.num 5) (D.num 3))
      ∧ (getArea ((getArea (Shape "Rectangle" (ShapeKind.rect (D.num 5) (D.num 3)))).2.1)).2.2
          = false
      ∧ (getArea ((getArea (Shape "Rectangle" (ShapeKind.rect (D.num 5) (D.num 3)))).2.1)).1
          = calculateArea (ShapeKind.rect (D.num 5) (D.num 3))
      ∧ (getArea ((getArea (Shape "Rectangle" (ShapeKind.rect (D.num 5) (D.num 3)))).2.1)).2.1
          = (getArea (Shape "Rectangle" (ShapeKind.rect (D.num 5) (D.num 3)))).2.1
      ∧ (getPerimeter (Shape "Rectangle" (ShapeKind.rect (D.num 5) (D.num 3)))).2.2 = true
      ∧ (getPerimeter (Shape "Rectangle" (ShapeKind.rect (D.num 5) (D.num 3)))).1
          = calculatePerimeter (ShapeKind.rect (D.num 5) (D.num 3))
      ∧ (getPerimeter
            ((getPerimeter (Shape "Rectangle" (ShapeKind.rect (D.num 5) (D.num 3)))).2.1)).2.2
          = false
      ∧ (getPerimeter
            ((getPerimeter (Shape "Rectangle" (ShapeKind.rect (D.num 5) (D.num 3)))).2.1)).1
          = calculatePerimeter (ShapeKind.rect (D.num 5) (D.num 3))
      ∧ (getPerimeter
            ((getPerimeter (Shape "Rectangle" (ShapeKind.rect (D.num 5) (D.num 3)))).2.1)).2.1
          = (getPerimeter (Shape "Rectangle" (ShapeKind.rect (D.num 5) (D.num 3)))).2.1) :=
  ⟨num_blt_false (5 * 3) 0 (by norm_num), num_blt_false (2 * (5 + 3)) 0 (by norm_num),
   C1_amended_memoization "Rectangle" (ShapeKind.rect (D.num 5) (D.num 3))
     (num_blt_false (5 * 3) 0 (by norm_num)) (num_blt_false (2 * (5 + 3)) 0 (by norm_num))⟩

/-- Claim C3: for every collection of shapes, `calculateShapeStats` returns
exactly the left-to-right sum of each shape's memoized area (the value of
its `getArea` accessor), the sum of each shape's memoized perimeter, and the
element count; for the five-shape set of `main` the total area is exactly
`15 + PI*16 + 6 + 15 + PI*6.25` (a value strictly between 105.89 and 105.91,
i.e. about 105.90) and the count is 5. -/
theorem C3_aggregate_stats :
    (∀ ss : List ShapeState,
        calculateShapeStats ss
          = { total_area := sumD (ss.map (fun sh => (getArea sh).1)),
              total_perimeter := sumD (ss.map (fun sh => (getPerimeter sh).1)),
              count := ss.length })
    ∧ (calculateShapeStats demoShapes).total_area
        = D.num (15 + Constants.PI * 16 + 6 + 15 + Constants.PI * 6.25)
    ∧ (calculateShapeStats demoShapes).count = 5
    ∧ (105.89 : ℚ) < 15 + Constants.PI * 16 + 6 + 15 + Constants.PI * 6.25
    ∧ 15 + Constants.PI * 16 + 6 + 15 + Constants.PI * 6.25 < (105.91 : ℚ) := by
  have e1 : (getArea (Rectangle (D.num 5) (D.num 3))).1 = D.num ((5 : ℚ) * 3) :=
    getArea_fresh_value "Rectangle" (ShapeKind.rect (D.num 5) (D.num 3))
  have e2 : (getArea (Circle (D.num 4))).1 = D.num (Constants.PI * ((4 : ℚ) * 4)) :=
    getArea_fresh_value "Circle" (ShapeKind.circ (D.num 4) (D.num 4 * D.num 4))
  have e3 : (getArea (Triangle (D.num 3) (D.num 4) (D.num 5))).1 = D.num 6 :=
    (getArea_fresh_value "Triangle" _).trans triangle_3_4_5_area
  have e4 : (getArea (Rectangle (D.num (5/2)) (D.num 6))).1 = D.num ((5/2 : ℚ) * 6) :=
    getArea_fresh_value "Rectangle" (ShapeKind.rect (D.num (5/2)) (D.num 6))
  have e5 : (getArea (Circle (D.num (5/2)))).1 = D.num (Constants.PI * ((5/2 : ℚ) * (5/2))) :=
    getArea_fresh_value "Circle" (ShapeKind.circ (D.num (5/2)) (D.num (5/2) * D.num (5/2)))
  refine ⟨calculateShapeStats_eq, ?_, ?_, ?_, ?_⟩
  · rw [calculateShapeStats_eq]
    show sumD (demoShapes.map fun sh => (getArea sh).1) = _
    simp only [demoShapes, List.map_cons, List.map_nil]
    rw [e1, e2, e3, e4, e5]
    simp only [sumD, List.foldl_cons, List.foldl_nil, num_add_num, D.num.injEq]
    norm_num [Constants.PI]
  · rw [calculateShapeStats_eq]
    rfl
  · norm_num [Constants.PI]
  · norm_num [Constants.PI]

/-- Claim C4 counterexample: for `Rectangle(-1, 3)` (area `-3`), the first
`getArea` call sets the cache to `-3`; because `-3 < 0`, a subsequent call
takes the recompute branch again (instrumentation flag `true`) and re-stores
the value — refuting "no sequence of calls after the cache is populated ever
overwrites the stored value".  The overwrite writes the identical value
`-3`. -/
theorem C4_counterexample :
    (getArea (Rectangle (D.num (-1)) (D.num 3))).2.1.cached_area = D.num (-3)
    ∧ (getArea ((getArea (Rectangle (D.num (-1)) (D.num 3))).2.1)).2.2 = true
    ∧ (getArea ((getArea (Rectangle (D.num (-1)) (D.num 3))).2.1)).2.1.cached_area
        = D.num (-3) := by
  refine ⟨?_, ?_, ?_⟩ <;>
    norm_num [Rectangle, Shape, getArea, calculateArea, decide_eq_true_eq]

/-- Claim C4, amended: once a cached metric holds the value of its formula,
its value never changes for the lifetime of the shape — every further
sequence of `getArea` / `getPerimeter` / `displayInfo` calls leaves it equal
to that value (when the value is negative the store re-executes, but it
always writes the identical value) — and the name and the defining
measurements never change after construction under any call sequence. -/
theorem C4_amended_cache_stability (nm : String) (k : ShapeKind) (ops1 ops2 : List Op) :
    ((runOps ops1 (Shape nm k)).cached_area = calculateArea k
        → (runOps ops2 (runOps ops1 (Shape nm k))).cached_area = calculateArea k)
    ∧ ((runOps ops1 (Shape nm k)).cached_perimeter = calculatePerimeter k
        → (runOps ops2 (runOps ops1 (Shape nm k))).cached_perimeter = calculatePerimeter k)
    ∧ (runOps ops2 (runOps ops1 (Shape nm k))).kind = k
    ∧ (runOps ops2 (runOps ops1 (Shape nm k))).name = nm := by
  have hk1 : (runOps ops1 (Shape nm k)).kind = k := runOps_kind ops1 (Shape nm k)
  refine ⟨?_, ?_, ?_, ?_⟩
  · intro h
    have h' : (runOps ops1 (Shape nm k)).cached_area
        = calculateArea (runOps ops1 (Shape nm k)).kind :=
      h.trans (congrArg calculateArea hk1.symm)
    exact (runOps_area_stable ops2 _ h').trans (congrArg calculateArea hk1)
  · intro h
    have h' : (runOps ops1 (Shape nm k)).cached_perimeter
        = calculatePerimeter (runOps ops1 (Shape nm k)).kind :=
      h.trans (congrArg calculatePerimeter hk1.symm)
    exact (runOps_perimeter_stable ops2 _ h').trans (congrArg calculatePerimeter hk1)
  · exact (runOps_kind ops2 _).trans hk1
  · exact (runOps_name ops2 _).trans (runOps_name ops1 _)

/-- Witness for the amended C4 at `Circle` variant data with radius 2: after
one `getArea` call populates the area cache, a further `getPerimeter` call
leaves the cached area, the variant data and the name unchanged. -/
theorem C4_amended_cache_stability_witness :
    (runOps [Op.perimeter]
        (runOps [Op.area] (Shape "Circle" (ShapeKind.circ (D.num 2) (D.num 4))))).cached_area
      = calculateArea (ShapeKind.circ (D.num 2) (D.num 4))
    ∧ (runOps [Op.perimeter]
        (runOps [Op.area] (Shape "Circle" (ShapeKind.circ (D.num 2) (D.num 4))))).kind
      = ShapeKind.circ (D.num 2) (D.num 4)
    ∧ (runOps [Op.perimeter]
        (runOps [Op.area] (Shape "Circle" (ShapeKind.circ (D.num 2) (D.num 4))))).name
      = "Circle" := by
  have h := C4_amended_cache_stability "Circle" (ShapeKind.circ (D.num 2) (D.num 4))
    [Op.area] [Op.perimeter]
  refine ⟨h.1 ?_, h.2.2.1, h.2.2.2⟩
  rw [runOps_cons, runOps_nil]
  show ((getArea (Shape "Circle" (ShapeKind.circ (D.num 2) (D.num 4)))).2.1).cached_area = _
  rw [getArea_fresh]

/-- Claim C10: after any number of prior calls in any order, the value
returned by the cached accessor `getArea` equals the value of the uncached
formula `calculateArea` on the shape's immutable variant data, and likewise
for `getPerimeter` — the caching layer is value-transparent.  This covers
negative formula values (the accessor then recomputes, returning the same
deterministic value) and NaN (`NaN < 0` is false, so the stored NaN is
served, which equals the formula's NaN). -/
theorem C10_cache_transparent (nm : String) (k : ShapeKind) (ops : List Op) :
    (getArea (runOps ops (Shape nm k))).1 = calculateArea k
    ∧ (getPerimeter (runOps ops (Shape nm k))).1 = calculatePerimeter k := by
  have hk : (runOps ops (Shape nm k)).kind = k := runOps_kind ops (Shape nm k)
  constructor
  · have h : (runOps ops (Shape nm k)).cached_area = D.num (-1)
        ∨ (runOps ops (Shape nm k)).cached_area
            = calculateArea (runOps ops (Shape nm k)).kind := by
      rcases runOps_area_cases ops (Shape nm k) with h | h
      · exact Or.inl h
      · exact Or.inr (h.trans (congrArg calculateArea hk.symm))
    rw [getArea_value_of_cases _ h, hk]
  · have h : (runOps ops (Shape nm k)).cached_perimeter = D.num (-1)
        ∨ (runOps ops (Shape nm k)).cached_perimeter
            = calculatePerimeter (runOps ops (Shape nm k)).kind := by
      rcases runOps_perimeter_cases ops (Shape nm k) with h | h
      · exact Or.inl h
      · exact Or.inr (h.trans (congrArg calculatePerimeter hk.symm))
    rw [getPerimeter_value_of_cases _ h, hk]

end ShapeCalc
